import Mathlib

/-!
Verification of the cue logging core: the atomic configuration registry
(src/unnamed/part_009), the dispatcher and registry mutations (src/logger.go),
and the worker / retry / degradation machinery (src/unnamed/part_010).

Shallow embedding conventions:
- Collectors are identified by `Nat` ids (Go uses interface identity as map key).
- Workers are identified by opaque `Nat` handles; `worker.Send` /
  `worker.Terminate` invocations are returned as data (recipient lists,
  `(workerId, flush)` pairs) instead of performed as effects.
- The Go registry `map[Collector]*entry` is an association list of entries;
  `registry[c]` lookup is `List.find?` on the collector id and map iteration is
  list iteration.
- `error` values are `Option String` (`none` = nil).
- Wall-clock time, stack-frame capture and goroutine scheduling are outside the
  embedding; sequenced Go statements (including statements after `go`) are
  modelled in program order.
-/

namespace Cue

/-- Modelled from the spec: the severity enum (the file level.go defining
`type Level` is absent from the sources; only level_test.go and its users
remain).  Per the spec, a lower enum value is more severe and `OFF` sits below
every severity so that an OFF threshold excludes all events:
OFF < FATAL < ERROR < WARN < INFO < DEBUG. -/
inductive Level where
  | OFF
  | FATAL
  | ERROR
  | WARN
  | INFO
  | DEBUG
deriving DecidableEq, Repr

/-- Numeric value of a level, matching the iota order modelled above.  Go
compares `Level` values with the built-in integer order; the embedding compares
`toNat` images. -/
def Level.toNat : Level → Nat
  | .OFF => 0
  | .FATAL => 1
  | .ERROR => 2
  | .WARN => 3
  | .INFO => 4
  | .DEBUG => 5

/-- Log event (event.go, `type Event`).  The `Time`, `Context` and `Frames`
fields are outside the embedding (wall clock / stack capture); `Level`,
`Message` and `Error` are kept. -/
structure Event where
  level : Level
  message : String
  error : Option String
deriving DecidableEq, Repr

/-- Embeds `newEvent` (event.go): constructs an event from level, cause and message
(timestamp omitted from the embedding). -/
def newEvent (level : Level) (cause : Option String) (message : String) : Event :=
  { level := level, message := message, error := cause }

/-- Registry entry (part_009, `type entry`): per-collector threshold, degraded
flag and worker handle.  The embedding also stores the collector id that keys
the entry in the Go map. -/
structure Entry where
  collector : Nat
  threshold : Level
  degraded : Bool
  worker : Nat
deriving DecidableEq, Repr

/-- Embeds `entry.clone` (part_009): field-by-field copy. -/
def Entry.clone (e : Entry) : Entry :=
  { collector := e.collector, threshold := e.threshold,
    degraded := e.degraded, worker := e.worker }

/-- Global config snapshot (part_009, `type config`). -/
structure Config where
  threshold : Level
  frames : Int
  errorFrames : Int
  registry : List Entry
deriving DecidableEq, Repr

/-- Embeds `newConfig` (part_009): threshold OFF, one frame, one error frame, empty
registry. -/
def newConfig : Config :=
  { threshold := .OFF, frames := 1, errorFrames := 1, registry := [] }

/-- Embeds `config.clone` (part_009): copies scalar fields and deep-copies every
registry entry. -/
def Config.clone (c : Config) : Config :=
  { threshold := c.threshold, frames := c.frames, errorFrames := c.errorFrames,
    registry := c.registry.map Entry.clone }

/-- Embeds `config.updateThreshold` (part_009 lines 105-113):
`max := OFF; for each entry e: if e.threshold > max && !e.degraded then max = e.threshold`,
then `c.threshold = max`. -/
def Config.updateThreshold (c : Config) : Config :=
  { c with
    threshold :=
      c.registry.foldl
        (fun m e =>
          if m.toNat < e.threshold.toNat ∧ e.degraded = false then e.threshold else m)
        Level.OFF }

/-- Embeds `logger.dispatchEvent` (logger.go lines 311-319): iterates the registry and
calls `entry.worker.Send(event)` for every entry with
`entry.threshold >= event.Level && !entry.degraded`.  The embedding returns the
list of entries whose worker `Send` is invoked, in iteration order.  (The
surrounding atomic `sending` counter increment/decrement nets to zero and is
modelled in the shutdown state, not here.) -/
def dispatchEvent (c : Config) (ev : Event) : List Entry :=
  c.registry.filter
    (fun en => decide (ev.level.toNat ≤ en.threshold.toNat) && !en.degraded)

/-- Embeds `logger.send` (logger.go lines 239-248): reads the config snapshot, returns
early when `level > config.threshold`, otherwise builds the event and dispatches
it.  Result: `none` when the fast path rejects (no event is even constructed),
otherwise the constructed event together with the dispatch recipients.
(`captureFrames` is outside the embedding.) -/
def send (c : Config) (level : Level) (err : Option String) (message : String) :
    Option (Event × List Entry) :=
  if c.threshold.toNat < level.toNat then none
  else
    let ev := newEvent level err message
    some (ev, dispatchEvent c ev)

/-- Embeds `logger.Error` (logger.go lines 190-196): returns nil immediately when the
error is nil; otherwise sends an ERROR event and returns the same error.
Result: (returned error, dispatch outcome of the send). -/
def loggerError (c : Config) (err : Option String) (message : String) :
    Option String × Option (Event × List Entry) :=
  match err with
  | none => (none, none)
  | some e => (some e, send c .ERROR (some e) message)

/-- Embeds `logger.Errorf` (logger.go lines 198-204): identical to `Error` except the
message is produced by `fmt.Sprintf`; the embedding takes the already-formatted
message. -/
def loggerErrorf (c : Config) (err : Option String) (formatted : String) :
    Option String × Option (Event × List Entry) :=
  match err with
  | none => (none, none)
  | some e => (some e, send c .ERROR (some e) formatted)

/-- Embeds `collect` (logger.go lines 365-385): clones the config, no-ops (without
publishing) when the collector is already registered, otherwise inserts an
entry with the given threshold and a fresh worker (handle `wid`; `newWorker`
picks sync vs async from bufsize, which only affects the worker object),
recomputes the global threshold and publishes.  The Go nil-collector guard has
no analogue for `Nat` ids. -/
def collect (c : Config) (threshold : Level) (col : Nat) (wid : Nat) : Config :=
  let n := c.clone
  match n.registry.find? (fun e => e.collector == col) with
  | some _ => c
  | none =>
      Config.updateThreshold
        { n with
          registry := n.registry ++
            [{ collector := col, threshold := threshold, degraded := false, worker := wid }] }

/-- Embeds `SetLevel` (logger.go lines 391-403): clones, no-ops when the collector is
unknown, otherwise updates the threshold of that entry, recomputes the global
threshold and publishes. -/
def setLevel (c : Config) (threshold : Level) (col : Nat) : Config :=
  let n := c.clone
  match n.registry.find? (fun e => e.collector == col) with
  | none => c
  | some _ =>
      Config.updateThreshold
        { n with
          registry := n.registry.map
            (fun e => if e.collector == col then { e with threshold := threshold } else e) }

/-- Embeds `SetFrames` (logger.go lines 420-428): clones the config, overwrites the
`frames` and `errorFrames` fields and publishes; no threshold recomputation. -/
def setFrames (c : Config) (frames errorFrames : Int) : Config :=
  let n := c.clone
  { n with frames := frames, errorFrames := errorFrames }

/-- Embeds `setDegraded` (logger.go lines 432-444): clones, no-ops when the collector
is unknown, otherwise sets the degraded flag of that entry, recomputes the global
threshold and publishes. -/
def setDegraded (c : Config) (col : Nat) (degraded : Bool) : Config :=
  let n := c.clone
  match n.registry.find? (fun e => e.collector == col) with
  | none => c
  | some _ =>
      Config.updateThreshold
        { n with
          registry := n.registry.map
            (fun e => if e.collector == col then { e with degraded := degraded } else e) }

/-- Embeds `dispose` (logger.go lines 501-517): clones, no-ops when the collector is
unknown, otherwise deletes the entry, recomputes the global threshold,
publishes, and calls `entry.worker.Terminate(false)`.  Result: the published
config and the terminate invocation `(workerId, flush)` if any. -/
def dispose (c : Config) (col : Nat) : Config × Option (Nat × Bool) :=
  let n := c.clone
  match n.registry.find? (fun e => e.collector == col) with
  | none => (c, none)
  | some e =>
      (Config.updateThreshold
        { n with registry := n.registry.filter (fun x => x.collector != col) },
       some (e.worker, false))

/-- Spec-side definition, for comparison with `Config.updateThreshold` (claim
C2): the maximum over all non-degraded registry entries of the entry threshold,
as a numeric level value, OFF (0) when there is no non-degraded entry. -/
def specGlobalThreshold (reg : List Entry) : Nat :=
  ((reg.filter (fun e => !e.degraded)).map (fun e => e.threshold.toNat)).foldr Nat.max 0

/-- The global-threshold invariant of claim C2, phrased over a config
snapshot. -/
def ThresholdInvariant (c : Config) : Prop :=
  c.threshold.toNat = specGlobalThreshold c.registry ∧
  (c.registry.filter (fun e => !e.degraded) = [] → c.threshold = Level.OFF)

/-! Worker and retry machinery (src/unnamed/part_010). -/

/-- Embeds `sendRetries` (part_010 line 37): number of `Collect` retries before failing
an event. -/
def sendRetries : Nat := 2

/-- Outcome of one `collector.Collect(event)` call: success, error return, or
panic (Go panics unwind to the deferred `recoverCollector`). -/
inductive COutcome where
  | ok
  | fail (err : String)
  | panicked (cause : String)
deriving DecidableEq, Repr

/-- How a `sendWithRetries` call ends: a normal return carrying the Go return
value, or a panic unwinding out of the loop (recovered by the deferred
`recoverCollector`). -/
inductive SendOutcome where
  | done (err : Option String)
  | panicked (cause : String)
deriving DecidableEq, Repr

/-- Observable trace of one `sendWithRetries` call: the outcome, the final
collector state, the event passed to each `Collect` invocation in order, and
the number of `Collect` invocations that returned nil (successful
deliveries). -/
structure SendTrace (σ : Type) where
  outcome : SendOutcome
  state : σ
  callLog : List Event
  accepted : Nat
deriving Repr

/-- The loop body of `sendWithRetries` (part_010 lines 180-188):
`for attempt := 0; attempt <= retries; attempt++` calling `c.Collect(event)`,
returning nil on the first success and remembering the first error otherwise.
Collectors are state machines `σ → Event → COutcome × σ`; `remaining` counts
the iterations left, `firstErr` is the `collectorErr` accumulator. -/
def sendLoop {σ : Type} (col : σ → Event → COutcome × σ) (ev : Event) :
    Nat → σ → Option String → List Event → Nat → SendTrace σ
  | 0, s, firstErr, log, acc =>
      { outcome := .done firstErr, state := s, callLog := log, accepted := acc }
  | remaining + 1, s, firstErr, log, acc =>
      match col s ev with
      | (.ok, s2) =>
          { outcome := .done none, state := s2, callLog := log ++ [ev], accepted := acc + 1 }
      | (.fail e, s2) =>
          sendLoop col ev remaining s2
            (match firstErr with | none => some e | some f => some f)
            (log ++ [ev]) acc
      | (.panicked cause, s2) =>
          { outcome := .panicked cause, state := s2, callLog := log ++ [ev], accepted := acc }

/-- Embeds `sendWithRetries` (part_010 lines 177-190): runs the retry loop for
`retries+1` attempts starting from `collectorErr = nil`.  The deferred
`recoverCollector` shows up as the `.panicked` outcome. -/
def sendWithRetries {σ : Type} (col : σ → Event → COutcome × σ) (s : σ) (ev : Event)
    (retries : Nat) : SendTrace σ :=
  sendLoop col ev (retries + 1) s none [] 0

/-- Test-double collector (cf. `newFailingCollector` in the tests of the repository): fails on its first `k` calls, succeeds afterwards.  State counts calls
made so far. -/
def failNTimes (k : Nat) : Nat → Event → COutcome × Nat :=
  fun n _ => if n < k then (.fail "collector error", n + 1) else (.ok, n + 1)

/-- Test-double collector that fails on every call, returning `errs n` on its
n-th call (0-based). -/
def alwaysFail (errs : Nat → String) : Nat → Event → COutcome × Nat :=
  fun n _ => (.fail (errs n), n + 1)

/-- Test-double collector (cf. `newPanickingCollector` in the tests of the repository): fails on calls before the k-th, panics on call `k` (0-based). -/
def panicOnCall (k : Nat) : Nat → Event → COutcome × Nat :=
  fun n _ => if n == k then (.panicked "collector panic", n + 1) else (.fail "collector error", n + 1)

/-- Asynchronous worker state (part_010, `type asyncWorker`): atomic drop
counter, collector handle, bounded queue with its channel capacity, and the
the `lastdrops` shadow of the worker loop. -/
structure AsyncWorker where
  drops : Nat
  collector : Nat
  queue : List Event
  capacity : Nat
  lastdrops : Nat
deriving DecidableEq, Repr

/-- Embeds `asyncWorker.Send` (part_010 lines 117-124): non-blocking
`select queue <- e / default`.  A buffered channel send succeeds exactly when
the buffer has free space; otherwise the default branch increments the atomic
drop counter.  No value is returned to the caller. -/
def AsyncWorker.send (w : AsyncWorker) (ev : Event) : AsyncWorker :=
  if w.queue.length < w.capacity then { w with queue := w.queue ++ [ev] }
  else { w with drops := w.drops + 1 }

/-! Degradation controller (part_010 lines 192-221) and panic recovery
(part_010 lines 231-242). -/

/-- Message of the internal WARN notification emitted after recovery
(part_010 line 202). -/
def recoveredMessage : String := "Collector has recovered from a degraded stated"

/-- Message of the internal ERROR notification emitted on degradation
(part_010 line 197). -/
def degradedMessage : String := "Collector has entered a degraded state"

/-- Embeds the probe loop of `ensureErrorSent` (part_010 lines 205-221), abstracted over
which attempt numbers the collector accepts: attempts are numbered 1, 2, ... ;
the loop returns at the first accepted attempt.  The Go loop is unbounded; the
embedding bounds it with `fuel` and returns the accepting attempt number, or
`none` when the collector accepted none of the first `fuel` probes (the Go loop
is still running).  The `time.Sleep(backoff(attempt))` between probes is a
real-time effect outside the embedding (see `backoff` below for the delay
values). -/
def ensureErrorSent (accepts : Nat → Bool) : Nat → Nat → Option Nat
  | 0, _ => none
  | fuel + 1, attempt =>
      if accepts (attempt + 1) then some (attempt + 1)
      else ensureErrorSent accepts fuel (attempt + 1)

/-- Observable trace of `handleDegradation`. -/
structure DegradationTrace where
  degradedConfig : Config
  errorBroadcast : Option (Event × List Entry)
  probeResult : Option Nat
  recoveredConfig : Config
  warnBroadcast : Option (Event × List Entry)
deriving Repr

/-- Embeds `handleDegradation` (part_010 lines 192-203), in program order:
`setDegraded(c, true)`; an internal ERROR notification (dispatched via
`internalLogger.Errorf`, i.e. `send` on the updated config); `ensureErrorSent`
probing the degraded collector until its first success; then
`setDegraded(c, false)` and an internal WARN "recovered" notification
(dispatched via `internalLogger.Warnf`, i.e. `send` on the config with the
flag already cleared).  When the probe loop has not yet succeeded (`none`), the
flag stays set and no WARN notification exists yet. -/
def handleDegradation (c : Config) (col : Nat) (errMsg : String)
    (accepts : Nat → Bool) (fuel : Nat) : DegradationTrace :=
  let c1 := setDegraded c col true
  let eb := send c1 .ERROR (some errMsg) degradedMessage
  match ensureErrorSent accepts fuel 0 with
  | none =>
      { degradedConfig := c1, errorBroadcast := eb, probeResult := none,
        recoveredConfig := c1, warnBroadcast := none }
  | some k =>
      let c2 := setDegraded c1 col false
      { degradedConfig := c1, errorBroadcast := eb, probeResult := some k,
        recoveredConfig := c2,
        warnBroadcast := send c2 .WARN none recoveredMessage }

/-- Observable trace of the panic handling in `recoverCollector`. -/
structure PanicTrace where
  newCfg : Config
  terminated : Option (Nat × Bool)
  fatalBroadcast : Option (Event × List Entry)
deriving Repr

/-- Embeds `recoverCollector` (part_010 lines 231-242) after a recovered panic:
`dispose(c)` (entry removed, worker terminated with flush=false), then
`internalLogger.ReportRecovery(cause, ...)`, whose `sendRecovery`
(logger.go lines 295-309) returns early when `FATAL > config.threshold` and
otherwise dispatches a FATAL event carrying the cause — the same gate-then-
dispatch behaviour as `send` at FATAL. -/
def recoverCollector (c : Config) (col : Nat) (cause : String) : PanicTrace :=
  let d := dispose c col
  { newCfg := d.1, terminated := d.2,
    fatalBroadcast :=
      send d.1 .FATAL (some cause)
        "Recovered from collector panic. Collector has been disposed" }

/-! Shutdown coordinator (logger.go lines 456-497). -/

/-- Global mutable state relevant to shutdown: the published config and the
atomic `sending` in-flight counter (logger.go line 40, incremented before and
decremented after each `dispatchEvent` body). -/
structure GlobalState where
  cfg : Config
  sending : Int
deriving DecidableEq, Repr

/-- Embeds `terminateWorkers` (logger.go lines 479-497): spins until the in-flight
counter is zero, then terminates every worker of the given registry with
flush=true (in parallel; the embedding lists the `Terminate` invocations, one
per entry, and `wg.Wait` makes the call return only after all complete).
Result `none` models the spin still waiting because `sending != 0`. -/
def terminateWorkers (reg : List Entry) (sending : Int) : Option (List (Nat × Bool)) :=
  if sending = 0 then some (reg.map (fun e => (e.worker, true))) else none

/-- Embeds `terminateAsync` (logger.go lines 468-477): under the config lock, reads
the current config, publishes a fresh `newConfig`, runs `terminateWorkers` on
the old registry and reports nil on the result channel.  Result: the new global
state, the worker `Terminate` invocations, and the value sent on the result
channel; `none` while blocked waiting for in-flight sends. -/
def terminateAsync (s : GlobalState) : Option (GlobalState × List (Nat × Bool) × Option String) :=
  match terminateWorkers s.cfg.registry s.sending with
  | none => none
  | some terms => some ({ cfg := newConfig, sending := s.sending }, terms, none)

/-- Embeds `Close` (logger.go lines 456-466): selects between the `terminateAsync`
result channel and `time.After(timeout)`.  `completed` says which fired first,
i.e. whether the termination work finished within the timeout; the function
returns the nil result in that case and the timeout error otherwise. -/
def closeResult (completed : Bool) : Option String :=
  if completed then none else some "cue: timeout waiting for buffers to flush"

/-! Backoff (part_010 lines 244-255). -/

/-- Embeds `maxDelay` (part_010 line 41): 5 minutes, in nanoseconds (time.Duration
units). -/
def maxDelayNs : Int := 300000000000

/-- Signed 64-bit wrap-around, the defined Go semantics of int64 overflow in
arithmetic (`time.Duration` is an int64 of nanoseconds). -/
def int64wrap (n : Int) : Int := (n + 2 ^ 63) % 2 ^ 64 - 2 ^ 63

/-- The Go `time.Duration(exp)` conversion of the float64 `exp = 2^attempt` to
int64: exact when the value is in int64 range (powers of two up to 2^62 are
exactly representable and convert exactly); for larger finite values the
conversion is out of range and the mainstream Go implementation produces
MinInt64. -/
def f64ToInt64 (m : Int) : Int :=
  if m < 2 ^ 63 then m else -(2 ^ 63)

/-- Embeds `backoff` (part_010 lines 244-255): `exp := math.Pow(2, attempt)` — exact
for `attempt ≤ 1023`, +Inf for larger attempts, in which case the NaN/Inf guard
returns `maxDelay`.  Otherwise
`delay := time.Millisecond * time.Duration(exp)` — an int64 product that wraps
on overflow — clamped to `maxDelay` only when the (possibly wrapped) product
exceeds it. -/
def backoff (attempt : Nat) : Int :=
  if 1024 ≤ attempt then maxDelayNs
  else
    let delay := int64wrap (1000000 * f64ToInt64 ((2 : Int) ^ attempt))
    if maxDelayNs < delay then maxDelayNs else delay

/-! Concrete configurations used as counterexample / witness inputs. -/

/-- A registry entry used in witness instantiations: collector 7 at threshold
WARN, not degraded. -/
def witnessEntry : Entry :=
  { collector := 7, threshold := Level.WARN, degraded := false, worker := 3 }

/-- A config holding exactly `witnessEntry`, with the matching global
threshold. -/
def witnessConfig : Config :=
  { threshold := Level.WARN, frames := 1, errorFrames := 1, registry := [witnessEntry] }

/-- Config for the recovery-broadcast scenario: collector 1 (threshold DEBUG)
is currently degraded, collector 2 (threshold INFO) is healthy; the global
threshold is the max over non-degraded entries (INFO). -/
def exampleRecoveryConfig : Config :=
  { threshold := Level.INFO, frames := 1, errorFrames := 1,
    registry :=
      [{ collector := 1, threshold := Level.DEBUG, degraded := true, worker := 10 },
       { collector := 2, threshold := Level.OFF, degraded := false, worker := 20 },
       { collector := 3, threshold := Level.INFO, degraded := false, worker := 30 }] }

/-- Config for the panic-disposal scenario: collector 1 (threshold DEBUG) is
the panicking one, collector 2 is registered at threshold OFF. -/
def examplePanicConfig : Config :=
  { threshold := Level.DEBUG, frames := 1, errorFrames := 1,
    registry :=
      [{ collector := 1, threshold := Level.DEBUG, degraded := false, worker := 10 },
       { collector := 2, threshold := Level.OFF, degraded := false, worker := 20 }] }

/-! Helper lemmas. -/

/-- Fact: `entry.clone` is the identity on the embedded entry value. -/
theorem entryClone_id (e : Entry) : e.clone = e := rfl

/-- Deep-copying the registry is the identity on the embedded registry
value. -/
theorem registry_map_clone (l : List Entry) : l.map Entry.clone = l := by
  have h : Entry.clone = id := funext fun e => rfl
  rw [h, List.map_id]

/-- Fact: `config.clone` is the identity on the embedded config value. -/
theorem configClone_id (c : Config) : c.clone = c := by
  cases c with
  | mk t f ef reg => simp [Config.clone, registry_map_clone]

/-- Only `OFF` has numeric level 0. -/
theorem Level.toNat_eq_zero {l : Level} (h : l.toNat = 0) : l = Level.OFF := by
  cases l <;> simp [Level.toNat] at h ⊢

/-- Every member of a list of naturals is bounded by the `foldr Nat.max 0`
of the list. -/
theorem le_foldr_max (l : List Nat) (x : Nat) (hx : x ∈ l) :
    x ≤ l.foldr Nat.max 0 := by
  induction l with
  | nil => cases hx
  | cons a t ih =>
      rcases List.mem_cons.mp hx with h | h
      · subst h; exact Nat.le_max_left _ _
      · exact le_trans (ih h) (Nat.le_max_right _ _)

/-- The `updateThreshold` fold, started from an arbitrary accumulator,
computes the max of the accumulator and the non-degraded maximum. -/
theorem foldl_thresh (reg : List Entry) (m : Level) :
    (reg.foldl
      (fun m e =>
        if m.toNat < e.threshold.toNat ∧ e.degraded = false then e.threshold else m)
      m).toNat = Nat.max m.toNat (specGlobalThreshold reg) := by
  induction reg generalizing m with
  | nil => simp [specGlobalThreshold]
  | cons e t ih =>
      by_cases hd : e.degraded
      · have hcond : ¬(m.toNat < e.threshold.toNat ∧ e.degraded = false) := by
          simp [hd]
        simp only [List.foldl_cons, if_neg hcond]
        rw [ih]
        have : specGlobalThreshold (e :: t) = specGlobalThreshold t := by
          simp [specGlobalThreshold, List.filter, hd]
        rw [this]
      · have hstep :
            (if m.toNat < e.threshold.toNat ∧ e.degraded = false then e.threshold
              else m).toNat = Nat.max m.toNat e.threshold.toNat := by
          by_cases hlt : m.toNat < e.threshold.toNat
          · rw [if_pos ⟨hlt, by simp [hd]⟩]
            exact (Nat.max_eq_right (Nat.le_of_lt hlt)).symm
          · have hcond : ¬(m.toNat < e.threshold.toNat ∧ e.degraded = false) := by
              intro hc; exact hlt hc.1
            rw [if_neg hcond]
            exact (Nat.max_eq_left (Nat.le_of_not_lt hlt)).symm
        have hspec : specGlobalThreshold (e :: t) =
            Nat.max e.threshold.toNat (specGlobalThreshold t) := by
          simp [specGlobalThreshold, List.filter, hd]
        simp only [List.foldl_cons]
        rw [ih, hstep, hspec]
        exact Nat.max_assoc _ _ _

/-- Any config produced by `updateThreshold` satisfies the global-threshold
invariant. -/
theorem updateThreshold_invariant (c : Config) :
    ThresholdInvariant c.updateThreshold := by
  constructor
  · show (c.registry.foldl _ Level.OFF).toNat = specGlobalThreshold c.registry
    rw [foldl_thresh]
    simp [Level.toNat]
  · intro h
    simp only [Config.updateThreshold] at h
    have h0 : specGlobalThreshold c.registry = 0 := by
      simp [specGlobalThreshold, h]
    have := foldl_thresh c.registry Level.OFF
    rw [h0] at this
    exact Level.toNat_eq_zero (by simpa [Level.toNat] using this)

/-- Non-degraded registry members are bounded by `specGlobalThreshold`. -/
theorem mem_le_specGlobalThreshold {reg : List Entry} {en : Entry}
    (hmem : en ∈ reg) (hd : en.degraded = false) :
    en.threshold.toNat ≤ specGlobalThreshold reg := by
  apply le_foldr_max
  exact List.mem_map.mpr ⟨en, List.mem_filter.mpr ⟨hmem, by simp [hd]⟩, rfl⟩

/-- The initial config satisfies the global-threshold invariant. -/
theorem invariant_newConfig : ThresholdInvariant newConfig := by
  constructor <;> simp [newConfig, ThresholdInvariant, specGlobalThreshold, Level.toNat]

/-- Fact: `collect` preserves the global-threshold invariant. -/
theorem invariant_collect (c : Config) (t : Level) (col w : Nat)
    (h : ThresholdInvariant c) : ThresholdInvariant (collect c t col w) := by
  unfold collect
  rw [configClone_id]
  cases hf : c.registry.find? (fun e => e.collector == col) with
  | some e => simpa [hf] using h
  | none => simp only [hf]; exact updateThreshold_invariant _

/-- Fact: `setLevel` preserves the global-threshold invariant. -/
theorem invariant_setLevel (c : Config) (t : Level) (col : Nat)
    (h : ThresholdInvariant c) : ThresholdInvariant (setLevel c t col) := by
  unfold setLevel
  rw [configClone_id]
  cases hf : c.registry.find? (fun e => e.collector == col) with
  | none => simpa [hf] using h
  | some e => simp only [hf]; exact updateThreshold_invariant _

/-- Fact: `setDegraded` preserves the global-threshold invariant. -/
theorem invariant_setDegraded (c : Config) (col : Nat) (d : Bool)
    (h : ThresholdInvariant c) : ThresholdInvariant (setDegraded c col d) := by
  unfold setDegraded
  rw [configClone_id]
  cases hf : c.registry.find? (fun e => e.collector == col) with
  | none => simpa [hf] using h
  | some e => simp only [hf]; exact updateThreshold_invariant _

/-- Fact: `dispose` preserves the global-threshold invariant. -/
theorem invariant_dispose (c : Config) (col : Nat)
    (h : ThresholdInvariant c) : ThresholdInvariant (dispose c col).1 := by
  unfold dispose
  rw [configClone_id]
  cases hf : c.registry.find? (fun e => e.collector == col) with
  | none => simpa [hf] using h
  | some e => simp only [hf]; exact updateThreshold_invariant _

/-- Fact: `setFrames` preserves the global-threshold invariant (threshold and
registry are untouched). -/
theorem invariant_setFrames (c : Config) (f ef : Int)
    (h : ThresholdInvariant c) : ThresholdInvariant (setFrames c f ef) := by
  unfold setFrames
  rw [configClone_id]
  exact h

/-! Claim theorems. -/

/-- C2: every published config snapshot satisfies threshold = max over all
non-degraded registry entries of the threshold of that entry (OFF when there is no
non-degraded entry), and every registry mutation — register (`collect`),
`setLevel`, `setDegraded`, `dispose` — recomputes this before publishing.  The
theorem states the invariant for the initial snapshot (`newConfig`, also the
one `terminateAsync` republishes) and its preservation by every publishing
operation, `SetFrames` included; the mutation branches that publish run
`updateThreshold` on the new snapshot, the no-op branches leave the previous
(invariant-satisfying) snapshot in place. -/
theorem config_threshold_invariant :
    ThresholdInvariant newConfig ∧
    (∀ c t col w, ThresholdInvariant c → ThresholdInvariant (collect c t col w)) ∧
    (∀ c t col, ThresholdInvariant c → ThresholdInvariant (setLevel c t col)) ∧
    (∀ c col d, ThresholdInvariant c → ThresholdInvariant (setDegraded c col d)) ∧
    (∀ c col, ThresholdInvariant c → ThresholdInvariant (dispose c col).1) ∧
    (∀ c f ef, ThresholdInvariant c → ThresholdInvariant (setFrames c f ef)) :=
  ⟨invariant_newConfig, invariant_collect, invariant_setLevel,
   invariant_setDegraded, invariant_dispose, invariant_setFrames⟩

/-- C2 witness: the invariant holds at a concrete published snapshot, obtained
by registering collector 1 at DEBUG on the initial config. -/
theorem config_threshold_invariant_witness :
    ThresholdInvariant (collect newConfig Level.DEBUG 1 0) :=
  config_threshold_invariant.2.1 newConfig Level.DEBUG 1 0 config_threshold_invariant.1

/-- C9: `SetFrames` publishes a snapshot that differs from the previous one
only in the `frames` and `errorFrames` fields; the global threshold and the
whole registry (the threshold, degraded flag and worker of every entry) are
unchanged. -/
theorem setFrames_frame_effect (c : Config) (f ef : Int) :
    (setFrames c f ef).frames = f ∧
    (setFrames c f ef).errorFrames = ef ∧
    (setFrames c f ef).threshold = c.threshold ∧
    (setFrames c f ef).registry = c.registry := by
  unfold setFrames
  rw [configClone_id]
  exact ⟨rfl, rfl, rfl, rfl⟩

/-- C4: the asynchronous `Send` returns nothing to the caller (its result type
carries no error) and is a non-blocking enqueue: with free queue space the
event is appended to the queue and nothing else changes; with a full queue the
queue is unchanged, the drop counter increments by exactly one, and nothing
else changes. -/
theorem asyncSend_enqueue_or_drop (w : AsyncWorker) (ev : Event) :
    (w.send ev).queue = (if w.queue.length < w.capacity then w.queue ++ [ev] else w.queue) ∧
    (w.send ev).drops = (if w.queue.length < w.capacity then w.drops else w.drops + 1) ∧
    (w.send ev).collector = w.collector ∧
    (w.send ev).capacity = w.capacity ∧
    (w.send ev).lastdrops = w.lastdrops := by
  unfold AsyncWorker.send
  by_cases h : w.queue.length < w.capacity <;> simp [h]

/-- C8: evaluation of `backoff` at the failing input.  For attempts 1 through
43 the delay does equal min(2^n milliseconds, 5 minutes), but at attempt 44 the
int64 product `time.Millisecond * time.Duration(2^44)` (= 2^44·10^6 ns)
overflows int64 and wraps to a negative duration, which the `delay > maxDelay`
clamp does not catch; the code therefore returns −854558029293551616 ns instead
of the 5-minute ceiling the formula (and the NaN/Inf clamp intent) prescribes.
The NaN/Inf guard itself fires only from attempt 1024 on. -/
theorem backoff_int64_overflow :
    backoff 44 = -854558029293551616 ∧
    min ((2 : Int) ^ 44 * 1000000) maxDelayNs = maxDelayNs ∧
    backoff 44 ≠ maxDelayNs ∧
    backoff 44 < 0 ∧
    (∀ n < 44, 1 ≤ n → backoff n = min ((2 : Int) ^ n * 1000000) maxDelayNs) ∧
    backoff 1024 = maxDelayNs :=
  ⟨by decide, by decide, by decide, by decide, by decide, by decide⟩

/-- C8 witness: the amended formula conjunct applied at attempt 5
(2^5 ms = 32000000 ns, below the ceiling). -/
theorem backoff_int64_overflow_witness :
    backoff 5 = min ((2 : Int) ^ 5 * 1000000) maxDelayNs :=
  backoff_int64_overflow.2.2.2.2.1 5 (by decide) (by decide)

/-- C10 counterexample: with the initial config (global threshold OFF, so
the fast path of `logger.send` rejects ERROR before even constructing an event),
`Error` on a non-nil error still returns that error but dispatches no ERROR
event — contradicting the claim that for every non-nil error an ERROR event is
dispatched. -/
theorem loggerError_counterexample :
    (loggerError newConfig (some "boom") "msg").1 = some "boom" ∧
    (loggerError newConfig (some "boom") "msg").2 = none := by
  exact ⟨rfl, rfl⟩

/-- C10 (amended): `Error`/`Errorf` return exactly the given error; on a
non-nil error an ERROR event (carrying that error) is dispatched if and only if
ERROR is within the global threshold; on a nil error both return nil, no event
is constructed and no collector worker `Send` is invoked. -/
theorem loggerError_passthrough (c : Config) (e msg fmsg : String) :
    (loggerError c (some e) msg).1 = some e ∧
    (loggerErrorf c (some e) fmsg).1 = some e ∧
    (Level.ERROR.toNat ≤ c.threshold.toNat →
      (loggerError c (some e) msg).2 =
        some (newEvent .ERROR (some e) msg,
              dispatchEvent c (newEvent .ERROR (some e) msg)) ∧
      (loggerErrorf c (some e) fmsg).2 =
        some (newEvent .ERROR (some e) fmsg,
              dispatchEvent c (newEvent .ERROR (some e) fmsg))) ∧
    (c.threshold.toNat < Level.ERROR.toNat →
      (loggerError c (some e) msg).2 = none ∧
      (loggerErrorf c (some e) fmsg).2 = none) ∧
    loggerError c none msg = (none, none) ∧
    loggerErrorf c none fmsg = (none, none) := by
  refine ⟨rfl, rfl, ?_, ?_, rfl, rfl⟩
  · intro h
    constructor <;> simp [loggerError, loggerErrorf, send, Nat.not_lt.mpr h]
  · intro h
    constructor <;> simp [loggerError, loggerErrorf, send, h]

/-- C10 witness: instantiated at `witnessConfig` (global threshold WARN, which
admits ERROR) with the error "boom". -/
theorem loggerError_passthrough_witness :
    (loggerError witnessConfig (some "boom") "msg").2 =
      some (newEvent .ERROR (some "boom") "msg",
            dispatchEvent witnessConfig (newEvent .ERROR (some "boom") "msg")) :=
  ((loggerError_passthrough witnessConfig "boom" "msg" "fmsg").2.2.1 (by decide)).1

/-- C6: the shutdown protocol.  Under the config lock, `terminateAsync`
(a) publishes a fresh `newConfig`, (b) proceeds only once the atomic in-flight
`sending` counter is zero (`terminateWorkers` spins otherwise, modelled by the
`none` result), (c) terminates every previously registered worker with
flush=true (the list of `Terminate` invocations, awaited via the WaitGroup),
and reports nil; `Close` then returns that nil exactly when the work completed
within the timeout and the timeout error otherwise.  With nothing registered
the terminate list is empty (immediate success), and running the protocol again
on the published state yields the same fresh state (idempotent reset). -/
theorem close_contract (s : GlobalState) (h : s.sending = 0) :
    terminateAsync s =
      some ({ cfg := newConfig, sending := s.sending },
            s.cfg.registry.map (fun e => (e.worker, true)), none) ∧
    (s.cfg.registry = [] →
      terminateAsync s = some ({ cfg := newConfig, sending := s.sending }, [], none)) ∧
    terminateAsync { cfg := newConfig, sending := s.sending } =
      some ({ cfg := newConfig, sending := s.sending }, [], none) ∧
    (∀ s2 : GlobalState, s2.sending ≠ 0 → terminateAsync s2 = none) ∧
    closeResult true = none ∧
    (∀ completed, closeResult completed = none ↔ completed = true) := by
  refine ⟨?_, ?_, ?_, ?_, rfl, ?_⟩
  · simp [terminateAsync, terminateWorkers, h]
  · intro hreg; simp [terminateAsync, terminateWorkers, h, hreg]
  · simp [terminateAsync, terminateWorkers, h, newConfig]
  · intro s2 h2; simp [terminateAsync, terminateWorkers, h2]
  · intro completed
    cases completed <;> simp [closeResult]

/-- C6 witness: the protocol applied to the quiescent initial state — nothing
registered, nothing in flight — returns immediately with success and no worker
terminations. -/
theorem close_contract_witness :
    terminateAsync { cfg := newConfig, sending := 0 } =
      some ({ cfg := newConfig, sending := 0 }, [], none) :=
  (close_contract { cfg := newConfig, sending := 0 } rfl).2.1 rfl

/-- C1: for an entry of the registry snapshot, the dispatcher invokes that
worker `Send` of that entry (the entry is among the dispatch recipients) — if the
entry is not degraded — if and only if the event severity S satisfies S ≤ T for
the entry threshold T in the numeric level order (lower value = more severe);
degraded entries are always skipped; and an OFF threshold excludes every event
of positive severity (i.e. all five real severities). -/
theorem dispatch_threshold_filtering (c : Config) (ev : Event) (en : Entry)
    (hmem : en ∈ c.registry) :
    (en.degraded = false →
      (en ∈ dispatchEvent c ev ↔ ev.level.toNat ≤ en.threshold.toNat)) ∧
    (en.degraded = true → en ∉ dispatchEvent c ev) ∧
    (en.threshold = Level.OFF → Level.OFF.toNat < ev.level.toNat →
      en ∉ dispatchEvent c ev) := by
  refine ⟨?_, ?_, ?_⟩
  · intro hd
    unfold dispatchEvent
    rw [List.mem_filter]
    simp [hmem, hd]
  · intro hd hcontra
    unfold dispatchEvent at hcontra
    rw [List.mem_filter] at hcontra
    simp [hd] at hcontra
  · intro ht hpos hcontra
    unfold dispatchEvent at hcontra
    rw [List.mem_filter] at hcontra
    have h2 := hcontra.2
    rw [ht] at h2
    simp [Level.toNat] at h2 hpos
    omega

/-- C1 witness: in `witnessConfig`, the non-degraded WARN-threshold entry
receives an ERROR event (ERROR ≤ WARN in the numeric order). -/
theorem dispatch_threshold_filtering_witness :
    witnessEntry ∈ dispatchEvent witnessConfig (newEvent .ERROR none "e") ↔
      (newEvent .ERROR none "e").level.toNat ≤ witnessEntry.threshold.toNat :=
  (dispatch_threshold_filtering witnessConfig (newEvent .ERROR none "e") witnessEntry
    (by decide)).1 rfl

/-- Unfolding equation of `sendLoop` for zero remaining attempts. -/
theorem sendLoop_zero {σ : Type} (col : σ → Event → COutcome × σ) (ev : Event)
    (s : σ) (fE : Option String) (log : List Event) (acc : Nat) :
    sendLoop col ev 0 s fE log acc =
      { outcome := .done fE, state := s, callLog := log, accepted := acc } := rfl

/-- Unfolding equation of `sendLoop` for one more remaining attempt. -/
theorem sendLoop_succ {σ : Type} (col : σ → Event → COutcome × σ) (ev : Event)
    (r : Nat) (s : σ) (fE : Option String) (log : List Event) (acc : Nat) :
    sendLoop col ev (r + 1) s fE log acc =
      match col s ev with
      | (.ok, s2) =>
          { outcome := .done none, state := s2, callLog := log ++ [ev], accepted := acc + 1 }
      | (.fail e, s2) =>
          sendLoop col ev r s2
            (match fE with | none => some e | some f => some f)
            (log ++ [ev]) acc
      | (.panicked cause, s2) =>
          { outcome := .panicked cause, state := s2, callLog := log ++ [ev],
            accepted := acc } := rfl

/-- Appending one copy of the event then a replication equals one longer
replication. -/
theorem append_singleton_replicate (log : List Event) (ev : Event) (n : Nat) :
    (log ++ [ev]) ++ List.replicate n ev = log ++ List.replicate (n + 1) ev := by
  simp [List.append_assoc, List.replicate_succ]

/-- The retry loop passes the same event to every `Collect` call: the call log
is always a replication of the input event, with at most `rem` entries beyond
the accumulator. -/
theorem sendLoop_callLog {σ : Type} (col : σ → Event → COutcome × σ) (ev : Event) :
    ∀ (rem : Nat) (s : σ) (fE : Option String) (log : List Event) (acc : Nat),
      ∃ n, n ≤ rem ∧
        (sendLoop col ev rem s fE log acc).callLog = log ++ List.replicate n ev := by
  intro rem
  induction rem with
  | zero =>
      intro s fE log acc
      exact ⟨0, Nat.le_refl 0, by simp [sendLoop_zero]⟩
  | succ r ih =>
      intro s fE log acc
      rw [sendLoop_succ]
      rcases hc : col s ev with ⟨o, s2⟩
      cases o with
      | ok =>
          refine ⟨1, by omega, ?_⟩
          simp
      | fail e =>
          obtain ⟨n, hn, hl⟩ :=
            ih s2 (match fE with | none => some e | some f => some f) (log ++ [ev]) acc
          refine ⟨n + 1, by omega, ?_⟩
          dsimp only
          rw [hl, append_singleton_replicate]
      | panicked cause =>
          refine ⟨1, by omega, ?_⟩
          simp

/-- Run of the retry loop against a collector that fails on its first `k` calls
and then succeeds, with enough attempts remaining to reach call `k`: the loop
returns nil at the first successful attempt, having made exactly `k + 1 - s`
further calls (all with the same event) and exactly one successful delivery. -/
theorem sendLoop_failNTimes (k : Nat) (ev : Event) :
    ∀ (rem s : Nat) (fE : Option String) (log : List Event) (acc : Nat),
      s ≤ k → k + 1 ≤ s + rem →
      sendLoop (failNTimes k) ev rem s fE log acc =
        { outcome := .done none, state := k + 1,
          callLog := log ++ List.replicate (k + 1 - s) ev, accepted := acc + 1 } := by
  intro rem
  induction rem with
  | zero => intro s fE log acc h1 h2; omega
  | succ r ih =>
      intro s fE log acc h1 h2
      rw [sendLoop_succ]
      by_cases hs : s < k
      · have hcall : failNTimes k s ev = (.fail "collector error", s + 1) := by
          simp [failNTimes, hs]
        rw [hcall]
        dsimp only
        rw [ih (s + 1) _ _ _ (by omega) (by omega),
            show k + 1 - (s + 1) = k - s from by omega,
            append_singleton_replicate,
            show (k - s) + 1 = k + 1 - s from by omega]
      · have hsk : s = k := by omega
        subst hsk
        have hcall : failNTimes s s ev = (.ok, s + 1) := by
          simp [failNTimes]
        rw [hcall]
        dsimp only
        rw [show s + 1 - s = 1 from by omega]
        rfl

/-- Run of the retry loop against an always-failing collector when the first
error is already recorded: the recorded error is kept, and all remaining
attempts are made. -/
theorem sendLoop_alwaysFail_some (errs : Nat → String) (ev : Event) (f : String) :
    ∀ (rem s : Nat) (log : List Event) (acc : Nat),
      sendLoop (alwaysFail errs) ev rem s (some f) log acc =
        { outcome := .done (some f), state := s + rem,
          callLog := log ++ List.replicate rem ev, accepted := acc } := by
  intro rem
  induction rem with
  | zero => intro s log acc; simp [sendLoop_zero]
  | succ r ih =>
      intro s log acc
      rw [sendLoop_succ]
      have hcall : alwaysFail errs s ev = (.fail (errs s), s + 1) := rfl
      rw [hcall]
      dsimp only
      rw [ih (s + 1) (log ++ [ev]) acc, append_singleton_replicate,
          show s + 1 + r = s + (r + 1) from by omega]

/-- Run of the retry loop against an always-failing collector starting with no
recorded error: the loop returns the error of the first attempt. -/
theorem sendLoop_alwaysFail_none (errs : Nat → String) (ev : Event)
    (r s : Nat) (log : List Event) (acc : Nat) :
    sendLoop (alwaysFail errs) ev (r + 1) s none log acc =
      { outcome := .done (some (errs s)), state := s + (r + 1),
        callLog := log ++ List.replicate (r + 1) ev, accepted := acc } := by
  rw [sendLoop_succ]
  have hcall : alwaysFail errs s ev = (.fail (errs s), s + 1) := rfl
  rw [hcall]
  dsimp only
  rw [sendLoop_alwaysFail_some errs ev (errs s) r (s + 1) (log ++ [ev]) acc,
      append_singleton_replicate,
      show s + 1 + r = s + (r + 1) from by omega]

/-- Run of the retry loop against a collector that fails before call `k` and
panics on call `k`, with enough attempts remaining to reach call `k`: the loop
aborts at the panic, after exactly `k + 1 - s` further calls and no successful
delivery. -/
theorem sendLoop_panicOnCall (k : Nat) (ev : Event) :
    ∀ (rem s : Nat) (fE : Option String) (log : List Event) (acc : Nat),
      s ≤ k → k + 1 ≤ s + rem →
      sendLoop (panicOnCall k) ev rem s fE log acc =
        { outcome := .panicked "collector panic", state := k + 1,
          callLog := log ++ List.replicate (k + 1 - s) ev, accepted := acc } := by
  intro rem
  induction rem with
  | zero => intro s fE log acc h1 h2; omega
  | succ r ih =>
      intro s fE log acc h1 h2
      rw [sendLoop_succ]
      by_cases hs : s = k
      · subst hs
        have hcall : panicOnCall s s ev = (.panicked "collector panic", s + 1) := by
          simp [panicOnCall]
        rw [hcall]
        dsimp only
        rw [show s + 1 - s = 1 from by omega]
        rfl
      · have hcall : panicOnCall k s ev = (.fail "collector error", s + 1) := by
          simp [panicOnCall, hs]
        rw [hcall]
        dsimp only
        rw [ih (s + 1) _ _ _ (by omega) (by omega),
            show k + 1 - (s + 1) = k - s from by omega,
            append_singleton_replicate,
            show (k - s) + 1 = k + 1 - s from by omega]

/-- C3: the shared retry helper makes at most `retries+1` `Collect` calls
(`sendRetries = 2` by default, hence 3 attempts), passing the very same event
on every call; against a collector failing on its first `k ≤ retries` calls and
then succeeding, it stops at the first successful attempt (exactly `k+1` calls)
with a nil result and exactly one successful delivery of the event — no
duplicate delivery; against an always-failing collector it makes all
`retries+1` calls and returns the first error encountered.  (The Go loop has no
sleep between attempts; timing is outside the embedding.) -/
theorem retry_policy (ev : Event) (r k : Nat) (errs : Nat → String) (hk : k ≤ r) :
    sendRetries = 2 ∧
    (∀ (σ : Type) (col : σ → Event → COutcome × σ) (s : σ),
       (sendWithRetries col s ev r).callLog.length ≤ r + 1 ∧
       ∀ e ∈ (sendWithRetries col s ev r).callLog, e = ev) ∧
    sendWithRetries (failNTimes k) 0 ev r =
      { outcome := .done none, state := k + 1,
        callLog := List.replicate (k + 1) ev, accepted := 1 } ∧
    (sendWithRetries (alwaysFail errs) 0 ev r).outcome = .done (some (errs 0)) ∧
    (sendWithRetries (alwaysFail errs) 0 ev r).callLog.length = r + 1 := by
  refine ⟨rfl, ?_, ?_, ?_, ?_⟩
  · intro σ col s
    obtain ⟨n, hn, hl⟩ := sendLoop_callLog col ev (r + 1) s none [] 0
    constructor
    · rw [sendWithRetries, hl]
      simp [hn]
    · intro e he
      rw [sendWithRetries, hl] at he
      simp only [List.nil_append] at he
      exact List.eq_of_mem_replicate he
  · have h := sendLoop_failNTimes k ev (r + 1) 0 none [] 0 (by omega) (by omega)
    rw [sendWithRetries, h]
    simp
  · rw [sendWithRetries, sendLoop_alwaysFail_none errs ev r 0 [] 0]
  · rw [sendWithRetries, sendLoop_alwaysFail_none errs ev r 0 [] 0]
    simp

/-- C3 witness: default retry budget (2), collector failing exactly twice then
succeeding: three calls of the same event, nil result, exactly one delivery. -/
theorem retry_policy_witness :
    sendWithRetries (failNTimes 2) 0 (newEvent .DEBUG none "m") 2 =
      { outcome := .done none, state := 3,
        callLog := List.replicate 3 (newEvent .DEBUG none "m"), accepted := 1 } :=
  (retry_policy (newEvent .DEBUG none "m") 2 2 (fun _ => "boom") (by decide)).2.2.1

/-- In the config published by `setDegraded`, every entry keyed by the given
collector carries the written degraded flag. -/
theorem setDegraded_degraded_flag (c : Config) (col : Nat) (d : Bool) :
    ∀ en ∈ (setDegraded c col d).registry, en.collector = col → en.degraded = d := by
  intro en hen hcol
  simp only [setDegraded, configClone_id] at hen
  cases hf : c.registry.find? (fun e => e.collector == col) with
  | none =>
      rw [hf] at hen
      dsimp only at hen
      have hnone := List.find?_eq_none.mp hf en hen
      simp [hcol] at hnone
  | some e0 =>
      rw [hf] at hen
      dsimp only [Config.updateThreshold] at hen
      obtain ⟨orig, horig, heq⟩ := List.mem_map.mp hen
      by_cases hc2 : orig.collector == col
      · rw [if_pos hc2] at heq
        rw [← heq]
      · rw [if_neg hc2] at heq
        subst heq
        simp [hcol] at hc2

/-- Inversion of a successful `send`: the gate passed, the event is the freshly
constructed one and the recipients are the dispatch of it. -/
theorem send_eq_some {c : Config} {lvl : Level} {err : Option String} {msg : String}
    {evr : Event} {recips : List Entry}
    (h : send c lvl err msg = some (evr, recips)) :
    evr = newEvent lvl err msg ∧ recips = dispatchEvent c (newEvent lvl err msg) := by
  unfold send at h
  by_cases hg : c.threshold.toNat < lvl.toNat
  · rw [if_pos hg] at h
    cases h
  · rw [if_neg hg] at h
    dsimp only at h
    have h2 := Option.some.inj h
    exact ⟨(congrArg Prod.fst h2).symm, (congrArg Prod.snd h2).symm⟩

/-- When the event level is within the global threshold, `send` dispatches. -/
theorem send_some_of_le {c : Config} {lvl : Level}
    (h : lvl.toNat ≤ c.threshold.toNat) (err : Option String) (msg : String) :
    send c lvl err msg =
      some (newEvent lvl err msg, dispatchEvent c (newEvent lvl err msg)) := by
  unfold send
  rw [if_neg (Nat.not_lt.mpr h)]

/-- A non-degraded registry member whose threshold admits the event level is
among the dispatch recipients, provided the config satisfies the
global-threshold invariant (so the global gate passes too). -/
theorem mem_dispatch_of_inv {c : Config} {en : Entry} {lvl : Level}
    (hinv : ThresholdInvariant c) (hen : en ∈ c.registry)
    (hd : en.degraded = false) (hle : lvl.toNat ≤ en.threshold.toNat)
    (err : Option String) (msg : String) :
    send c lvl err msg =
      some (newEvent lvl err msg, dispatchEvent c (newEvent lvl err msg)) ∧
    en ∈ dispatchEvent c (newEvent lvl err msg) := by
  have hgate : lvl.toNat ≤ c.threshold.toNat := by
    have := mem_le_specGlobalThreshold hen hd
    rw [hinv.1]
    omega
  refine ⟨send_some_of_le hgate err msg, ?_⟩
  unfold dispatchEvent
  rw [List.mem_filter]
  exact ⟨hen, by simp [newEvent, hd, hle]⟩

/-- C5 counterexample: in `exampleRecoveryConfig`, collector 1 is the degraded
one.  After its first successful probe acceptance the WARN "collector
recovered" notification is dispatched on the config whose degraded flag is
already cleared, so the recovered collector 1 itself (threshold DEBUG ≥ WARN)
is among the recipients — contradicting "broadcast ... not to the recovered
collector itself".  (Collector 2, registered at OFF, receives nothing either,
contradicting "to all other registered collectors".) -/
theorem recovery_broadcast_counterexample :
    (handleDegradation exampleRecoveryConfig 1 "boom" (fun _ => true) 1).warnBroadcast =
      some (newEvent .WARN none recoveredMessage,
        [{ collector := 1, threshold := Level.DEBUG, degraded := false, worker := 10 },
         { collector := 3, threshold := Level.INFO, degraded := false, worker := 30 }]) ∧
    ((handleDegradation exampleRecoveryConfig 1 "boom" (fun _ => true) 1).warnBroadcast.map
        (fun p => p.2.map Entry.collector)) = some [1, 3] := by
  exact ⟨rfl, rfl⟩

/-- C5 (amended): when the degraded collector first successfully accepts the
synthetic recovery-probe event, its degraded flag is cleared and the WARN-level
"collector recovered" notification is dispatched through the normal dispatch
path against the updated config: it reaches exactly the registered non-degraded
entries whose threshold admits WARN — which includes the recovered collector
itself whenever its threshold admits WARN — while the earlier ERROR
"entered a degraded state" notification is dispatched while the flag is set and
therefore never reaches the degraded collector. -/
theorem recovery_broadcast (c : Config) (col : Nat) (errMsg : String)
    (accepts : Nat → Bool) (fuel k : Nat) (hinv : ThresholdInvariant c)
    (hacc : ensureErrorSent accepts fuel 0 = some k) :
    (handleDegradation c col errMsg accepts fuel).recoveredConfig =
      setDegraded (setDegraded c col true) col false ∧
    (∀ en ∈ (handleDegradation c col errMsg accepts fuel).recoveredConfig.registry,
      en.collector = col → en.degraded = false) ∧
    (handleDegradation c col errMsg accepts fuel).warnBroadcast =
      send (handleDegradation c col errMsg accepts fuel).recoveredConfig
        .WARN none recoveredMessage ∧
    (∀ evr recips,
      (handleDegradation c col errMsg accepts fuel).warnBroadcast = some (evr, recips) →
      evr.level = .WARN ∧
      recips = dispatchEvent
        (handleDegradation c col errMsg accepts fuel).recoveredConfig evr) ∧
    (∀ en ∈ (handleDegradation c col errMsg accepts fuel).recoveredConfig.registry,
      en.degraded = false → Level.WARN.toNat ≤ en.threshold.toNat →
      ∃ evr recips,
        (handleDegradation c col errMsg accepts fuel).warnBroadcast = some (evr, recips) ∧
        en ∈ recips) ∧
    (∀ evd recips,
      (handleDegradation c col errMsg accepts fuel).errorBroadcast = some (evd, recips) →
      ∀ en ∈ recips, en.collector ≠ col) := by
  have htr : handleDegradation c col errMsg accepts fuel =
      { degradedConfig := setDegraded c col true,
        errorBroadcast := send (setDegraded c col true) .ERROR (some errMsg) degradedMessage,
        probeResult := some k,
        recoveredConfig := setDegraded (setDegraded c col true) col false,
        warnBroadcast :=
          send (setDegraded (setDegraded c col true) col false) .WARN none recoveredMessage } := by
    unfold handleDegradation
    rw [hacc]
  rw [htr]
  dsimp only
  have hinv2 : ThresholdInvariant (setDegraded (setDegraded c col true) col false) :=
    invariant_setDegraded _ col false (invariant_setDegraded c col true hinv)
  refine ⟨rfl, ?_, rfl, ?_, ?_, ?_⟩
  · exact setDegraded_degraded_flag (setDegraded c col true) col false
  · intro evr recips h
    obtain ⟨hev, hrec⟩ := send_eq_some h
    subst hev
    exact ⟨rfl, hrec⟩
  · intro en hen hd hle
    obtain ⟨hsend, hmem⟩ := mem_dispatch_of_inv hinv2 hen hd hle none recoveredMessage
    exact ⟨newEvent .WARN none recoveredMessage,
      dispatchEvent (setDegraded (setDegraded c col true) col false)
        (newEvent .WARN none recoveredMessage), hsend, hmem⟩
  · intro evd recips h en hen hcol
    obtain ⟨hev, hrec⟩ := send_eq_some h
    subst hrec
    unfold dispatchEvent at hen
    rw [List.mem_filter] at hen
    have hflag := setDegraded_degraded_flag c col true en hen.1 hcol
    simp [hflag] at hen

/-- C5 witness: the amended statement instantiated at `exampleRecoveryConfig`,
collector 1, with a probe accepted on the first attempt: the published config
after recovery is the double `setDegraded` update. -/
theorem recovery_broadcast_witness :
    (handleDegradation exampleRecoveryConfig 1 "boom" (fun _ => true) 1).recoveredConfig =
      setDegraded (setDegraded exampleRecoveryConfig 1 true) 1 false :=
  (recovery_broadcast exampleRecoveryConfig 1 "boom" (fun _ => true) 1 1
    ⟨by decide, by decide⟩ (by decide)).1

/-- The config published by `dispose` holds no entry keyed by the disposed
collector. -/
theorem dispose_not_mem (c : Config) (col : Nat) :
    ∀ en ∈ (dispose c col).1.registry, en.collector ≠ col := by
  intro en hen
  simp only [dispose, configClone_id] at hen
  cases hf : c.registry.find? (fun e => e.collector == col) with
  | none =>
      rw [hf] at hen
      dsimp only at hen
      intro hcol
      have hnone := List.find?_eq_none.mp hf en hen
      simp [hcol] at hnone
  | some e0 =>
      rw [hf] at hen
      dsimp only [Config.updateThreshold] at hen
      intro hcol
      have hpred := (List.mem_filter.mp hen).2
      simp [hcol] at hpred

/-- When the disposed collector is registered, `dispose` terminates its worker
without flushing. -/
theorem dispose_terminated (c : Config) (col : Nat) (e0 : Entry)
    (hf : c.registry.find? (fun e2 => e2.collector == col) = some e0) :
    (dispose c col).2 = some (e0.worker, false) := by
  simp only [dispose, configClone_id, hf]

/-- Unfolding equation of `recoverCollector`. -/
theorem recoverCollector_eq (c : Config) (col : Nat) (cause : String) :
    recoverCollector c col cause =
      { newCfg := (dispose c col).1, terminated := (dispose c col).2,
        fatalBroadcast := send (dispose c col).1 .FATAL (some cause)
          "Recovered from collector panic. Collector has been disposed" } := rfl

/-- C7 counterexample: in `examplePanicConfig`, collector 1 panics and is
disposed; collector 2 remains registered (at threshold OFF).  After disposal
the recomputed global threshold is OFF, so the `FATAL > config.threshold` gate of `sendRecovery` fires and no FATAL notification is dispatched
at all — the remaining registered collector receives nothing, contradicting
"a FATAL-level notification is emitted to every remaining registered
collector". -/
theorem panic_broadcast_counterexample :
    (recoverCollector examplePanicConfig 1 "collector panic").fatalBroadcast = none ∧
    (recoverCollector examplePanicConfig 1 "collector panic").newCfg.registry =
      [{ collector := 2, threshold := Level.OFF, degraded := false, worker := 20 }] := by
  exact ⟨rfl, rfl⟩

/-- C7 (amended): a panic from the `Collect` of a collector is recovered at the
delivery boundary — the retry loop stops at the panicking call (no further
`Collect` attempts, no successful delivery, hence no degradation handling for
that delivery) — and the collector is disposed: its registry entry is removed,
its worker is terminated with flush=false, and it is excluded from every
subsequent dispatch.  A FATAL notification carrying the panic cause is then
dispatched through the normal path: it reaches exactly the remaining
non-degraded entries whose threshold admits FATAL (no one when the remaining
global threshold is OFF), never the panicking collector. -/
theorem panic_disposal (c : Config) (col : Nat) (cause : String) (ev : Event)
    (r k : Nat) (hinv : ThresholdInvariant c) (hk : k ≤ r) :
    ((sendWithRetries (panicOnCall k) 0 ev r).outcome = .panicked "collector panic" ∧
     (sendWithRetries (panicOnCall k) 0 ev r).callLog.length = k + 1 ∧
     (sendWithRetries (panicOnCall k) 0 ev r).accepted = 0) ∧
    (∀ en ∈ (recoverCollector c col cause).newCfg.registry, en.collector ≠ col) ∧
    (∀ ev2 en, en ∈ dispatchEvent (recoverCollector c col cause).newCfg ev2 →
      en.collector ≠ col) ∧
    (∀ e0, c.registry.find? (fun e2 => e2.collector == col) = some e0 →
      (recoverCollector c col cause).terminated = some (e0.worker, false)) ∧
    (∀ evf recips,
      (recoverCollector c col cause).fatalBroadcast = some (evf, recips) →
      evf.level = .FATAL ∧ ∀ en ∈ recips, en.collector ≠ col) ∧
    (∀ en ∈ (recoverCollector c col cause).newCfg.registry,
      en.degraded = false → Level.FATAL.toNat ≤ en.threshold.toNat →
      ∃ evf recips,
        (recoverCollector c col cause).fatalBroadcast = some (evf, recips) ∧
        en ∈ recips) := by
  rw [recoverCollector_eq]
  dsimp only
  have hinvd : ThresholdInvariant (dispose c col).1 := invariant_dispose c col hinv
  refine ⟨?_, dispose_not_mem c col, ?_, ?_, ?_, ?_⟩
  · have h := sendLoop_panicOnCall k ev (r + 1) 0 none [] 0 (by omega) (by omega)
    rw [sendWithRetries, h]
    simp
  · intro ev2 en hen
    unfold dispatchEvent at hen
    exact dispose_not_mem c col en (List.mem_filter.mp hen).1
  · intro e0 hf
    exact dispose_terminated c col e0 hf
  · intro evf recips h
    obtain ⟨hev, hrec⟩ := send_eq_some h
    subst hev
    refine ⟨rfl, ?_⟩
    intro en hen
    subst hrec
    unfold dispatchEvent at hen
    exact dispose_not_mem c col en (List.mem_filter.mp hen).1
  · intro en hen hd hle
    obtain ⟨hsend, hmem⟩ := mem_dispatch_of_inv hinvd hen hd hle (some cause)
      "Recovered from collector panic. Collector has been disposed"
    exact ⟨newEvent .FATAL (some cause)
        "Recovered from collector panic. Collector has been disposed",
      dispatchEvent (dispose c col).1
        (newEvent .FATAL (some cause)
          "Recovered from collector panic. Collector has been disposed"),
      hsend, hmem⟩

/-- C7 witness: the amended statement instantiated at `examplePanicConfig`:
the worker of panicking collector 1 (handle 10) is terminated without
flushing. -/
theorem panic_disposal_witness :
    (recoverCollector examplePanicConfig 1 "collector panic").terminated =
      some (10, false) :=
  (panic_disposal examplePanicConfig 1 "collector panic" (newEvent .DEBUG none "m") 2 2
      ⟨by decide, by decide⟩ (by decide)).2.2.2.1
    { collector := 1, threshold := Level.DEBUG, degraded := false, worker := 10 }
    (by decide)

end Cue
